import Mathlib

/-
  Verification development for the Vision-Logistics dwell-time engine.

  Shallow embedding of:
    - src/manager/src/types/index.ts              (data model)
    - src/unnamed/part_002                        (RedisClient store operations)
    - src/manager/src/services/kafka-consumer.ts  (DwellProcessor: processEvent,
      updateDwellState, handleTimeout, processTimeouts)
    - src/unnamed/part_001                        (feedback routes: relabel,
      correct-cell)

  Modelling conventions:
    - JS numbers used as timestamps and dwell values are modelled as Int
      (the code only adds, subtracts and compares them).
    - Redis is modelled as typed association lists: hashes keyed by
      (collector, camera, object), sorted sets as member-to-score lists,
      lists via List.  TTL refresh (expire) is not modelled; it does not
      affect any value the claims mention.
    - JS truthiness of the fields the code tests with "if (x)" is modelled
      explicitly: a string is truthy iff non-empty, a number is truthy iff
      non-zero, null is falsy.
    - The string round-trip through Redis (toString / parseInt / the literal
      string "null") is modelled separately in the StoredObjectHash section;
      for every state the engine itself writes (enter_ts_ms always non-null)
      the round-trip is exact, so the engine operates on typed states here.
-/

namespace VisionLogistics

/-- Observation, from NormalizedEventSchema in src/manager/src/types/index.ts. -/
structure NormalizedEvent where
  event_id : String
  collector_id : String
  camera_id : String
  object_id : String
  grid_cell_id : String
  ts_ms : Int
deriving DecidableEq, Repr

/-- Timeline entry type enum from TimelineEntrySchema. -/
inductive EntryType
  | enter
  | leave
  | correct
  | delete
deriving DecidableEq, Repr

/-- Value of a meta field (the code stores strings and numbers). -/
inductive MetaVal
  | str (s : String)
  | int (i : Int)
deriving DecidableEq, Repr

/-- Timeline entry from TimelineEntrySchema. -/
structure TimelineEntry where
  type : EntryType
  cell_id : String
  from_ts_ms : Int
  to_ts_ms : Option Int
  meta : List (String × MetaVal)
deriving DecidableEq, Repr

/-- Object state from ObjectStateSchema. -/
structure ObjectState where
  collector_id : String
  camera_id : String
  object_id : String
  current_cell : Option String
  enter_ts_ms : Option Int
  last_seen_ts_ms : Int
  accumulated_ms : Int
deriving DecidableEq, Repr

/-- CellStats record from the types file (fields parsed by getCellStats). -/
structure CellStats where
  collector_id : String
  camera_id : String
  grid_cell_id : String
  total_dwell_ms : Int
  object_count : Int
  avg_dwell_ms : Int
  max_dwell_ms : Int
  min_dwell_ms : Int
deriving DecidableEq, Repr

/-- JS truthiness of a nullable string: null and the empty string are falsy. -/
def truthyStr : Option String → Bool
  | none => false
  | some s => s ≠ ""

/-- JS truthiness of a nullable number: null and 0 are falsy. -/
def truthyInt : Option Int → Bool
  | none => false
  | some i => i ≠ 0

/-- Association-list lookup (first binding wins). -/
def lookupA {α β : Type} [DecidableEq α] : List (α × β) → α → Option β
  | [], _ => none
  | (k1, v1) :: rest, k => if k1 = k then some v1 else lookupA rest k

/-- Association-list update: replace the binding in place, or append it. -/
def updateA {α β : Type} [DecidableEq α] : List (α × β) → α → β → List (α × β)
  | [], k, v => [(k, v)]
  | (k1, v1) :: rest, k, v =>
      if k1 = k then (k, v) :: rest else (k1, v1) :: updateA rest k v

/-- The Redis store: object-state hashes keyed obj:c:cam:o, per-cell sorted
sets keyed cell:c:cam:cell (member objectId, score dwell), per-object
timeline lists keyed timeline:c:cam:o, and the audit:feedback stream
(modelled as the list of event types appended by logFeedbackEvent). -/
structure Store where
  objects : List ((String × String × String) × ObjectState)
  cells : List ((String × String × String) × List (String × Int))
  timelines : List ((String × String × String) × List TimelineEntry)
  audit : List String
deriving DecidableEq, Repr

def Store.empty : Store := { objects := [], cells := [], timelines := [], audit := [] }

/-- RedisClient.getObjectState (hGetAll on the object key). -/
def Store.getObjectState (st : Store) (collectorId cameraId objectId : String) :
    Option ObjectState :=
  lookupA st.objects (collectorId, cameraId, objectId)

/-- RedisClient.setObjectState (hSet of every field; expire not modelled). -/
def Store.setObjectState (st : Store) (s : ObjectState) : Store :=
  { st with objects := updateA st.objects (s.collector_id, s.camera_id, s.object_id) s }

/-- Redis zAdd: sets the score of the member, replacing any existing score. -/
def zAdd (zs : List (String × Int)) (member : String) (score : Int) :
    List (String × Int) :=
  updateA zs member score

/-- Redis zRem: removes the member from the sorted set. -/
def zRem (zs : List (String × Int)) (member : String) : List (String × Int) :=
  zs.filter (fun p => p.1 != member)

/-- RedisClient.updateCellDwell: zAdd of (objectId, dwellMs) on the cell key. -/
def Store.updateCellDwell (st : Store) (collectorId cameraId cellId objectId : String)
    (dwellMs : Int) : Store :=
  let k := (collectorId, cameraId, cellId)
  { st with cells := updateA st.cells k (zAdd ((lookupA st.cells k).getD []) objectId dwellMs) }

/-- RedisClient.removeCellDwell: zRem of the object from the cell key. -/
def Store.removeCellDwell (st : Store) (collectorId cameraId cellId objectId : String) :
    Store :=
  match lookupA st.cells (collectorId, cameraId, cellId) with
  | none => st
  | some zs =>
      { st with cells := updateA st.cells (collectorId, cameraId, cellId) (zRem zs objectId) }

/-- RedisClient.addTimelineEntry: lPush then lTrim 0 99. -/
def Store.addTimelineEntry (st : Store) (collectorId cameraId objectId : String)
    (entry : TimelineEntry) : Store :=
  let k := (collectorId, cameraId, objectId)
  { st with timelines := updateA st.timelines k ((entry :: (lookupA st.timelines k).getD []).take 100) }

/-- RedisClient.logFeedbackEvent: xAdd to the audit:feedback stream. -/
def Store.logFeedbackEvent (st : Store) (eventType : String) : Store :=
  { st with audit := st.audit ++ [eventType] }

/-- The score held by the cell sorted set for this object (none if absent):
the total contribution of the object to the cell, as the store keeps it. -/
def Store.cellContribution (st : Store) (collectorId cameraId cellId objectId : String) :
    Option Int :=
  lookupA ((lookupA st.cells (collectorId, cameraId, cellId)).getD []) objectId

/-- The stored timeline list of an object, newest entry first (lPush order). -/
def Store.timelineOf (st : Store) (collectorId cameraId objectId : String) :
    List TimelineEntry :=
  (lookupA st.timelines (collectorId, cameraId, objectId)).getD []

/-- DwellProcessor.handleTimeout.  Guarded by JS truthiness of
state.current_cell and state.enter_ts_ms; credits last_seen - enter to the
current cell and emits a leave entry with meta reason timeout.  It does NOT
modify the object state. -/
def handleTimeout (st : Store) (s : ObjectState) : Store :=
  if truthyStr s.current_cell && truthyInt s.enter_ts_ms then
    let dwellTime := s.last_seen_ts_ms - s.enter_ts_ms.getD 0
    (st.updateCellDwell s.collector_id s.camera_id (s.current_cell.getD "") s.object_id
        dwellTime).addTimelineEntry s.collector_id s.camera_id s.object_id
      { type := .leave, cell_id := s.current_cell.getD "",
        from_ts_ms := s.enter_ts_ms.getD 0, to_ts_ms := some s.last_seen_ts_ms,
        meta := [("reason", .str "timeout")] }
  else st

/-- DwellProcessor.updateDwellState.  Returns the store after the timeline and
aggregate writes together with the new object state that processEvent then
persists.  Mirrors the source: first-sighting branch, then the stale check
(handleTimeout, which leaves the state untouched), then the same-cell branch,
then the transition branch with its truthiness guards. -/
def updateDwellState (timeoutMs : Int) (st : Store) (event : NormalizedEvent)
    (currentState : Option ObjectState) : Store × ObjectState :=
  let now := event.ts_ms
  match currentState with
  | none =>
      (st.addTimelineEntry event.collector_id event.camera_id event.object_id
         { type := .enter, cell_id := event.grid_cell_id, from_ts_ms := now,
           to_ts_ms := none, meta := [] },
       { collector_id := event.collector_id, camera_id := event.camera_id,
         object_id := event.object_id, current_cell := some event.grid_cell_id,
         enter_ts_ms := some now, last_seen_ts_ms := now, accumulated_ms := 0 })
  | some cs =>
      let st1 := if now - cs.last_seen_ts_ms > timeoutMs then handleTimeout st cs else st
      if cs.current_cell = some event.grid_cell_id then
        (st1, { cs with last_seen_ts_ms := now })
      else
        let dwellTime := if truthyInt cs.enter_ts_ms then now - cs.enter_ts_ms.getD 0 else 0
        let newAccumulated := cs.accumulated_ms + dwellTime
        let st2 :=
          if truthyStr cs.current_cell && truthyInt cs.enter_ts_ms then
            (st1.updateCellDwell event.collector_id event.camera_id
                (cs.current_cell.getD "") event.object_id dwellTime).addTimelineEntry
              event.collector_id event.camera_id event.object_id
              { type := .leave, cell_id := cs.current_cell.getD "",
                from_ts_ms := cs.enter_ts_ms.getD 0, to_ts_ms := some now, meta := [] }
          else st1
        let st3 := st2.addTimelineEntry event.collector_id event.camera_id event.object_id
          { type := .enter, cell_id := event.grid_cell_id, from_ts_ms := now,
            to_ts_ms := none, meta := [] }
        (st3, { collector_id := event.collector_id, camera_id := event.camera_id,
                object_id := event.object_id, current_cell := some event.grid_cell_id,
                enter_ts_ms := some now, last_seen_ts_ms := now,
                accumulated_ms := newAccumulated })

/-- The deduplication state of a DwellProcessor: the processedEvents set
(modelled as the list of inserted ids) plus the timeout configuration. -/
structure Processor where
  seen : List String
  timeoutMs : Int
deriving DecidableEq, Repr

/-- DwellProcessor.processEvent: dedup check, read state, updateDwellState,
persist the new state, then record the event id; the set is cleared once its
size exceeds 10000. -/
def processEvent (p : Processor) (st : Store) (event : NormalizedEvent) :
    Processor × Store :=
  if event.event_id ∈ p.seen then (p, st)
  else
    let res := updateDwellState p.timeoutMs st event
      (st.getObjectState event.collector_id event.camera_id event.object_id)
    let st2 := res.1.setObjectState res.2
    let seen1 := event.event_id :: p.seen
    let seen2 := if seen1.length > 10000 then [] else seen1
    ({ p with seen := seen2 }, st2)

/-- Processing a whole observation sequence in order through processEvent. -/
def processAll (p : Processor) (st : Store) : List NormalizedEvent → Processor × Store
  | [] => (p, st)
  | event :: rest =>
      let r := processEvent p st event
      processAll r.1 r.2 rest

/-- DwellProcessor.processTimeouts.  The source body reads Date.now(), writes a
debug log line and performs no store operation at all: the sweep is a stub. -/
def processTimeouts (st : Store) (now : Int) : Store :=
  let _ := now
  st

/-- POST /feedback/relabel body, from FeedbackRelabelSchema. -/
structure FeedbackRelabel where
  collector_id : String
  camera_id : String
  old_object_id : String
  new_object_id : String
  timestamp_ms : Int
deriving DecidableEq, Repr

/-- POST /feedback/correct-cell body, from FeedbackCorrectCellSchema. -/
structure FeedbackCorrectCell where
  collector_id : String
  camera_id : String
  object_id : String
  frame_ts_ms : Int
  correct_cell_id : String
deriving DecidableEq, Repr

/-- Outcome of a feedback route (HTTP status family). -/
inductive FeedbackStatus
  | notFound
  | noChange
  | ok
deriving DecidableEq, Repr

/-- POST /feedback/relabel handler (src/unnamed/part_001).  Writes the old
state under the new id (the old state entry is NOT deleted); only when the
old current_cell is truthy AND accumulated_ms > 0 does it move the aggregate:
zRem of the old id then zAdd of accumulated_ms under the new id. -/
def relabel (st : Store) (fb : FeedbackRelabel) : Store × FeedbackStatus :=
  match st.getObjectState fb.collector_id fb.camera_id fb.old_object_id with
  | none => (st, .notFound)
  | some oldState =>
      let newState := { oldState with object_id := fb.new_object_id }
      let st1 := st.setObjectState newState
      let st2 :=
        if truthyStr oldState.current_cell ∧ 0 < oldState.accumulated_ms then
          (st1.removeCellDwell fb.collector_id fb.camera_id
              (oldState.current_cell.getD "") fb.old_object_id).updateCellDwell
            fb.collector_id fb.camera_id (oldState.current_cell.getD "")
            fb.new_object_id oldState.accumulated_ms
        else st1
      (st2.logFeedbackEvent "relabel", .ok)

/-- POST /feedback/correct-cell handler (src/unnamed/part_001).  The guard on
the removal and the correct entry is JS truthiness of current_cell AND
enter_ts_ms.  The corrected state keeps accumulated_ms untouched. -/
def correctCell (st : Store) (fb : FeedbackCorrectCell) : Store × FeedbackStatus :=
  match st.getObjectState fb.collector_id fb.camera_id fb.object_id with
  | none => (st, .notFound)
  | some objectState =>
      if objectState.current_cell = some fb.correct_cell_id then
        (st, .noChange)
      else
        let st1 :=
          if truthyStr objectState.current_cell && truthyInt objectState.enter_ts_ms then
            (st.removeCellDwell fb.collector_id fb.camera_id
                (objectState.current_cell.getD "") fb.object_id).addTimelineEntry
              fb.collector_id fb.camera_id fb.object_id
              { type := .correct, cell_id := objectState.current_cell.getD "",
                from_ts_ms := objectState.enter_ts_ms.getD 0,
                to_ts_ms := some fb.frame_ts_ms,
                meta := [("reason", .str "correction"),
                         ("original_cell", .str (objectState.current_cell.getD "")),
                         ("corrected_cell", .str fb.correct_cell_id)] }
          else st
        let correctedState := { objectState with
          current_cell := some fb.correct_cell_id,
          enter_ts_ms := some fb.frame_ts_ms,
          last_seen_ts_ms := fb.frame_ts_ms }
        let st2 := st1.setObjectState correctedState
        let st3 := st2.addTimelineEntry fb.collector_id fb.camera_id fb.object_id
          { type := .enter, cell_id := fb.correct_cell_id,
            from_ts_ms := fb.frame_ts_ms, to_ts_ms := none,
            meta := [("reason", .str "correction")] }
        (st3.logFeedbackEvent "correct_cell", .ok)

/-- A JS number as produced by division: exact rationals for finite results,
with the IEEE special values for division by zero (0/0 is NaN, x/0 is a
signed infinity).  Float rounding of finite quotients is not modelled. -/
inductive JSNum
  | nan
  | posInf
  | negInf
  | val (q : ℚ)
deriving DecidableEq

/-- JS division of two integers. -/
def jsDiv (a b : Int) : JSNum :=
  if b = 0 then
    if a = 0 then .nan else if 0 < a then .posInf else .negInf
  else .val ((a : ℚ) / (b : ℚ))

/-- Whether a JS number is a finite value in the closed interval [0, 1]. -/
def JSNum.inUnit : JSNum → Bool
  | .val q => decide (0 ≤ q) && decide (q ≤ 1)
  | _ => false

/-- One cell of the heatmap response built by generateHeatmapData. -/
structure HeatmapCell where
  grid_cell_id : String
  x : Int
  y : Int
  dwell_ms : Int
  object_count : Int
  intensity : JSNum
deriving DecidableEq

/-- The heatmap response (the Date.now() timestamp field is not modelled). -/
structure HeatmapData where
  collector_id : String
  camera_id : String
  grid_width : Int
  grid_height : Int
  cells : List HeatmapCell
  window_ms : Int
deriving DecidableEq

/-- `Math.max(...stats.map(s => s.total_dwell_ms))` guarded by
`stats.length > 0 ? ... : 1`. -/
def maxDwellOf (stats : List CellStats) : Int :=
  match stats with
  | [] => 1
  | s :: rest => (rest.map (fun t => t.total_dwell_ms)).foldl max s.total_dwell_ms

/-- The coordinate extraction `grid_cell_id.match(/G_(\d+)_(\d+)/) || ["","0","0"]`
followed by parseInt, modelled for ids of the shape G_XX_YY (underscore
split); any non-matching id falls back to (0, 0) as in the source. -/
def cellXY (s : String) : Int × Int :=
  match s.splitOn "_" with
  | [g, xs, ys] =>
      if g = "G" then ((xs.toNat?.getD 0 : Int), (ys.toNat?.getD 0 : Int)) else (0, 0)
  | _ => (0, 0)

/-- RedisClient.generateHeatmapData, parametrised by the CellStats list that
getCellStats returned: empty cells for windowMs = 0, otherwise one cell per
stat with intensity = total_dwell_ms / maxDwell. -/
def generateHeatmapData (collectorId cameraId : String) (windowMs : Int)
    (stats : List CellStats) : HeatmapData :=
  if windowMs = 0 then
    { collector_id := collectorId, camera_id := cameraId, grid_width := 20,
      grid_height := 15, cells := [], window_ms := windowMs }
  else
    let maxDwell := maxDwellOf stats
    { collector_id := collectorId, camera_id := cameraId, grid_width := 20,
      grid_height := 15,
      cells := stats.map (fun stat =>
        { grid_cell_id := stat.grid_cell_id,
          x := (cellXY stat.grid_cell_id).1,
          y := (cellXY stat.grid_cell_id).2,
          dwell_ms := stat.total_dwell_ms,
          object_count := stat.object_count,
          intensity := jsDiv stat.total_dwell_ms maxDwell }),
      window_ms := windowMs }

/-- The result of JS parseInt: an integer or NaN. -/
inductive JSInt
  | nan
  | int (i : Int)
deriving DecidableEq, Repr

/-- A stored Redis hash field that holds either the decimal representation of
an integer (from Number.prototype.toString) or the literal string "null".
Both are non-empty strings, and toString of an integer is never the string
"null", so the two constructors are exactly the two distinguishable cases. -/
inductive NumStr
  | ofInt (i : Int)
  | nullStr
deriving DecidableEq, Repr

/-- JS truthiness of a stored field string: both cases are non-empty strings,
hence truthy — including the string "null". -/
def NumStr.truthy : NumStr → Bool := fun _ => true

/-- parseInt on a stored field string: the integer back for a decimal string,
NaN for the string "null". -/
def NumStr.parseIntJS : NumStr → JSInt
  | .ofInt i => .int i
  | .nullStr => .nan

/-- The Redis hash written by RedisClient.setObjectState: every field a
string. -/
structure StoredObjectHash where
  collector_id : String
  camera_id : String
  object_id : String
  current_cell : String
  enter_ts_ms : NumStr
  last_seen_ts_ms : NumStr
  accumulated_ms : NumStr
deriving DecidableEq, Repr

/-- RedisClient.setObjectState field encoding: `state.current_cell ?? "null"`,
`state.enter_ts_ms?.toString() ?? "null"`, toString for the rest. -/
def encodeState (s : ObjectState) : StoredObjectHash :=
  { collector_id := s.collector_id, camera_id := s.camera_id,
    object_id := s.object_id,
    current_cell := s.current_cell.getD "null",
    enter_ts_ms := match s.enter_ts_ms with
      | some e => .ofInt e
      | none => .nullStr,
    last_seen_ts_ms := .ofInt s.last_seen_ts_ms,
    accumulated_ms := .ofInt s.accumulated_ms }

/-- The state value RedisClient.getObjectState returns: numeric fields are
whatever parseInt produced, so they may be NaN. -/
structure DecodedObjectState where
  collector_id : String
  camera_id : String
  object_id : String
  current_cell : Option String
  enter_ts_ms : Option JSInt
  last_seen_ts_ms : JSInt
  accumulated_ms : JSInt
deriving DecidableEq, Repr

/-- RedisClient.getObjectState field decoding:
`data.current_cell === "null" ? null : data.current_cell` and
`data.enter_ts_ms ? parseInt(data.enter_ts_ms) : null` (the stored string is
always truthy, "null" included), parseInt for the rest. -/
def decodeState (h : StoredObjectHash) : DecodedObjectState :=
  { collector_id := h.collector_id, camera_id := h.camera_id,
    object_id := h.object_id,
    current_cell := if h.current_cell = "null" then none else some h.current_cell,
    enter_ts_ms := if h.enter_ts_ms.truthy then some h.enter_ts_ms.parseIntJS else none,
    last_seen_ts_ms := h.last_seen_ts_ms.parseIntJS,
    accumulated_ms := h.accumulated_ms.parseIntJS }

/-- The field-for-field image of a typed ObjectState inside the decoded type:
what a lossless round-trip through the store would have to return. -/
def embedState (s : ObjectState) : DecodedObjectState :=
  { collector_id := s.collector_id, camera_id := s.camera_id,
    object_id := s.object_id,
    current_cell := s.current_cell,
    enter_ts_ms := s.enter_ts_ms.map JSInt.int,
    last_seen_ts_ms := .int s.last_seen_ts_ms,
    accumulated_ms := .int s.accumulated_ms }

/- Concrete scenario inputs (spec section 8, W=20, H=15, T_timeout=30000). -/

/-- S1 observation: (A, G_05_08, 1000). -/
def obsS1 : NormalizedEvent := ⟨"ev1", "col", "cam", "A", "G_05_08", 1000⟩

/-- S2 observation: (A, G_05_08, 1500). -/
def obsS2 : NormalizedEvent := ⟨"ev2", "col", "cam", "A", "G_05_08", 1500⟩

/-- S3 observation: (A, G_06_08, 2500). -/
def obsS3 : NormalizedEvent := ⟨"ev3", "col", "cam", "A", "G_06_08", 2500⟩

/-- S6 observation: (A, G_04_08, 1200), out of order after S3. -/
def obsS6 : NormalizedEvent := ⟨"ev4", "col", "cam", "A", "G_04_08", 1200⟩

/-- A fresh processor with the default 30000 ms timeout and empty dedup set. -/
def procInit : Processor := ⟨[], 30000⟩

/-- The store after processing S1, S2, S3 from empty. -/
def storeS3 : Store := (processAll procInit Store.empty [obsS1, obsS2, obsS3]).2

/-- The object state the engine holds after S3. -/
def stateS3 : ObjectState := ⟨"col", "cam", "A", some "G_06_08", some 2500, 2500, 1500⟩

/-- Association-list lookup directly after an update of the same key. -/
theorem lookupA_updateA_self {α β : Type} [DecidableEq α] (l : List (α × β)) (k : α)
    (v : β) : lookupA (updateA l k v) k = some v := by
  induction l with
  | nil => simp [updateA, lookupA]
  | cons hd tl ih =>
      by_cases h : hd.1 = k
      · simp [updateA, lookupA, h]
      · simp only [updateA]
        rw [if_neg h]
        simp only [lookupA]
        rw [if_neg h]
        exact ih

/-- C4 (amended): repeated add_contribution calls for the same (cell, object)
do not accumulate: zAdd replaces the score, so after two successive calls the
total contribution equals d2, the value of the most recent call. -/
theorem C4_add_contribution (st : Store) (col cam cell obj : String) (d1 d2 : Int) :
    ((st.updateCellDwell col cam cell obj d1).updateCellDwell col cam cell obj
        d2).cellContribution col cam cell obj = some d2 := by
  simp [Store.updateCellDwell, Store.cellContribution, zAdd, lookupA_updateA_self]

/-- C4 counterexample: add_contribution of 1 then 2 leaves a total of 2,
not 1 + 2 = 3 as the claim states. -/
theorem C4_counterexample :
    ((Store.empty.updateCellDwell "col" "cam" "G_01_01" "A" 1).updateCellDwell "col"
        "cam" "G_01_01" "A" 2).cellContribution "col" "cam" "G_01_01" "A" = some 2 ∧
    some (2 : Int) ≠ some ((1 : Int) + 2) := by
  constructor
  · decide
  · decide

/-- C5: the Timeout Sweeper body (DwellProcessor.processTimeouts) performs no
store operation.  Run at the S4 sweep time 42500 over the post-S3 store with
its stale object (last_seen 2500, 40000 ms of silence), it leaves the store
untouched: the object still has current_cell G_06_08 and enter_ts_ms 2500
instead of null, no dwell of 0 is credited to G_06_08, and no timeout leave
entry is added. -/
theorem C5_sweeper_stub :
    processTimeouts storeS3 42500 = storeS3 ∧
    (processTimeouts storeS3 42500).getObjectState "col" "cam" "A" = some stateS3 ∧
    (processTimeouts storeS3 42500).cellContribution "col" "cam" "G_06_08" "A" = none ∧
    (processTimeouts storeS3 42500).timelineOf "col" "cam" "A" =
      storeS3.timelineOf "col" "cam" "A" := by
  refine ⟨rfl, by decide, by decide, rfl⟩

/-- C1 (amended): for a cell transition within the timeout window, provided
the prior state has a truthy current_cell c and a truthy enter_ts_ms e (non
null AND non zero; the source tests both with JS truthiness, so e = 0 skips
the credit and the leave entry), updateDwellState credits dwell = o.ts - e to
c, emits leave(c, e, o.ts) then enter(o.cell, o.ts, null), and returns the
state with current_cell = o.cell, enter = last_seen = o.ts and accumulated_ms
increased by the dwell.  In particular scenario S3 yields contribution 1500
on G_05_08, state (G_06_08, 2500, 2500, 1500), and the timeline head
enter(G_06_08, 2500, null) followed by leave(G_05_08, 1000, 2500). -/
theorem C1_transition (tm : Int) (st : Store) (s : ObjectState) (o : NormalizedEvent)
    (c : String) (e : Int)
    (hcur : s.current_cell = some c) (hc : c ≠ "")
    (hne : c ≠ o.grid_cell_id)
    (hent : s.enter_ts_ms = some e) (he : e ≠ 0)
    (hgap : o.ts_ms - s.last_seen_ts_ms ≤ tm) :
    updateDwellState tm st o (some s) =
      (((st.updateCellDwell o.collector_id o.camera_id c o.object_id
            (o.ts_ms - e)).addTimelineEntry o.collector_id o.camera_id o.object_id
          { type := .leave, cell_id := c, from_ts_ms := e, to_ts_ms := some o.ts_ms,
            meta := [] }).addTimelineEntry o.collector_id o.camera_id o.object_id
        { type := .enter, cell_id := o.grid_cell_id, from_ts_ms := o.ts_ms,
          to_ts_ms := none, meta := [] },
       { collector_id := o.collector_id, camera_id := o.camera_id,
         object_id := o.object_id, current_cell := some o.grid_cell_id,
         enter_ts_ms := some o.ts_ms, last_seen_ts_ms := o.ts_ms,
         accumulated_ms := s.accumulated_ms + (o.ts_ms - e) }) ∧
    storeS3.getObjectState "col" "cam" "A" = some stateS3 ∧
    storeS3.cellContribution "col" "cam" "G_05_08" "A" = some 1500 ∧
    storeS3.timelineOf "col" "cam" "A" =
      [⟨.enter, "G_06_08", 2500, none, []⟩,
       ⟨.leave, "G_05_08", 1000, some 2500, []⟩,
       ⟨.enter, "G_05_08", 1000, none, []⟩] := by
  refine ⟨?_, by decide, by decide, by decide⟩
  have h1 : ¬ (o.ts_ms - s.last_seen_ts_ms > tm) := by omega
  have h2 : ¬ (s.current_cell = some o.grid_cell_id) := by
    rw [hcur]
    simp [hne]
  simp [updateDwellState, if_neg h1, if_neg h2, hcur, hent, truthyStr, truthyInt,
    hc, he, hne]

/-- C1 counterexample: a prior state with enter_ts_ms = 0 (created by a first
sighting at ts_ms = 0, which the event schema admits) transitioning at
ts = 100 credits nothing and accumulates nothing, while the claim demands a
credited dwell of 100 - 0 = 100 and accumulated_ms = 100. -/
theorem C1_counterexample :
    (updateDwellState 30000 Store.empty ⟨"z1", "col", "cam", "A", "G_06_08", 100⟩
        (some ⟨"col", "cam", "A", some "G_05_08", some 0, 0, 0⟩)).2.accumulated_ms = 0 ∧
    (0 : Int) ≠ 0 + (100 - 0) ∧
    (updateDwellState 30000 Store.empty ⟨"z1", "col", "cam", "A", "G_06_08", 100⟩
        (some ⟨"col", "cam", "A", some "G_05_08", some 0, 0, 0⟩)).1.cellContribution
      "col" "cam" "G_05_08" "A" = none := by
  refine ⟨by decide, by decide, by decide⟩

/-- C2 (amended): out-of-order observations are not rejected, counted, or
dropped — no out-of-order check exists in updateDwellState — and they do
change state: with any non-negative timeout, a same-cell observation with
o.ts_ms < s.last_seen_ts_ms rewinds last_seen_ts_ms to o.ts_ms, so the
resulting state differs from s. -/
theorem C2_out_of_order (tm : Int) (st : Store) (s : ObjectState) (o : NormalizedEvent)
    (htm : 0 ≤ tm)
    (hlt : o.ts_ms < s.last_seen_ts_ms)
    (hcell : s.current_cell = some o.grid_cell_id) :
    updateDwellState tm st o (some s) = (st, { s with last_seen_ts_ms := o.ts_ms }) ∧
    { s with last_seen_ts_ms := o.ts_ms } ≠ s := by
  constructor
  · have h1 : ¬ (o.ts_ms - s.last_seen_ts_ms > tm) := by omega
    simp [updateDwellState, if_neg h1, hcell]
  · intro h
    have := congrArg ObjectState.last_seen_ts_ms h
    simp at this
    omega

/-- C2 counterexample: scenario S6 — after S3 the out-of-order observation
(A, G_04_08, 1200) is applied rather than rejected, and the object state
changes (the code moves the object to G_04_08 with last_seen 1200 and even
accumulates the negative dwell 1200 - 2500). -/
theorem C2_counterexample :
    (processAll procInit Store.empty [obsS1, obsS2, obsS3, obsS6]).2.getObjectState
        "col" "cam" "A" ≠ storeS3.getObjectState "col" "cam" "A" ∧
    (processAll procInit Store.empty [obsS1, obsS2, obsS3, obsS6]).2.getObjectState
        "col" "cam" "A" = some ⟨"col", "cam", "A", some "G_04_08", some 1200, 1200, 200⟩ := by
  constructor
  · decide
  · decide

/-- C3 (amended): when gap > T_timeout, the implicit close does happen as the
claim states (credit of last_seen - enter to the current cell with a
timeout-reason leave entry, guarded by truthiness of current_cell and
enter_ts_ms) — but the observation is NOT treated as a first sighting after
the gap: in the same-cell case shown here the state keeps enter_ts_ms = e
and accumulated_ms unchanged, only last_seen_ts_ms moves to o.ts_ms, and no
new enter entry is emitted. -/
theorem C3_gap_same_cell (tm : Int) (st : Store) (s : ObjectState) (o : NormalizedEvent)
    (c : String) (e : Int)
    (hcur : s.current_cell = some c) (hc : c ≠ "")
    (hent : s.enter_ts_ms = some e) (he : e ≠ 0)
    (hsame : o.grid_cell_id = c)
    (hgap : o.ts_ms - s.last_seen_ts_ms > tm) :
    updateDwellState tm st o (some s) =
      ((st.updateCellDwell s.collector_id s.camera_id c s.object_id
          (s.last_seen_ts_ms - e)).addTimelineEntry s.collector_id s.camera_id
        s.object_id
        { type := .leave, cell_id := c, from_ts_ms := e,
          to_ts_ms := some s.last_seen_ts_ms, meta := [("reason", .str "timeout")] },
       { s with last_seen_ts_ms := o.ts_ms }) := by
  subst hsame
  have h2 : s.current_cell = some o.grid_cell_id := hcur
  simp [updateDwellState, if_pos hgap, h2, handleTimeout, hcur, hent, truthyStr,
    truthyInt, hc, he]

/-- C3 counterexample: prior state (G_05_08, enter 1000, last_seen 1500) and
observation (G_05_08, 40000) with gap 38500 > 30000: the claim demands a
post-gap state with enter_ts_ms = 40000, but the code keeps enter_ts_ms =
1000 (the open span silently spans the gap). -/
theorem C3_counterexample :
    (updateDwellState 30000 Store.empty ⟨"g1", "col", "cam", "A", "G_05_08", 40000⟩
        (some ⟨"col", "cam", "A", some "G_05_08", some 1000, 1500, 0⟩)).2.enter_ts_ms =
      some 1000 ∧
    some (1000 : Int) ≠ some (40000 : Int) := by
  constructor
  · decide
  · decide

/-- C6 (amended): relabel copies the state under the new id (the old state
entry is not deleted) and, only when the old current_cell is truthy and
accumulated_ms > 0, moves the aggregate on that cell by removing the old
member and setting the new member score to accumulated_ms alone — the open
dwell now - enter_ts_ms is never added (the handler never reads the clock for
aggregates) and any prior score of the old id on that cell is discarded
rather than carried into the sum. -/
theorem C6_relabel (st : Store) (fb : FeedbackRelabel) (s : ObjectState) (c : String)
    (hget : st.getObjectState fb.collector_id fb.camera_id fb.old_object_id = some s)
    (hcur : s.current_cell = some c) (hc : c ≠ "")
    (hacc : 0 < s.accumulated_ms) :
    relabel st fb =
      ((((st.setObjectState { s with object_id := fb.new_object_id }).removeCellDwell
            fb.collector_id fb.camera_id c fb.old_object_id).updateCellDwell
          fb.collector_id fb.camera_id c fb.new_object_id
          s.accumulated_ms).logFeedbackEvent "relabel", .ok) := by
  have hcond : truthyStr s.current_cell = true ∧ 0 < s.accumulated_ms := by
    rw [hcur]
    exact ⟨by simp [truthyStr, hc], hacc⟩
  simp [relabel, hget, if_pos hcond, hcur, truthyStr, hc, hacc]

/-- C6 counterexample: relabel A to B on the post-S3 store (A in G_06_08
since 2500, accumulated 1500, wall time 5000 as in scenario S5): B carries a
contribution of 1500 (the accumulated closed-span dwell) on G_06_08, not the
2500 = 0 + (5000 - 2500) that the claim (old prior contribution plus open
dwell) demands. -/
theorem C6_counterexample :
    (relabel storeS3 ⟨"col", "cam", "A", "B", 5000⟩).1.cellContribution "col" "cam"
        "G_06_08" "B" = some 1500 ∧
    some (1500 : Int) ≠ some ((0 : Int) + (5000 - 2500)) := by
  constructor
  · decide
  · decide

/-- C7 (amended): correct_cell on a state whose current_cell c and
enter_ts_ms e are both JS-truthy (e ≠ 0 in particular) and with c different
from the target cell removes the object member from the aggregate of c, adds
the correct and enter timeline entries, and persists the state with
current_cell, enter_ts_ms and last_seen_ts_ms replaced and every other field
— accumulated_ms included — unchanged.  When e = 0 the removal is skipped
(see the counterexample). -/
theorem C7_correct_cell (st : Store) (fb : FeedbackCorrectCell) (s : ObjectState)
    (c : String) (e : Int)
    (hget : st.getObjectState fb.collector_id fb.camera_id fb.object_id = some s)
    (hcur : s.current_cell = some c) (hc : c ≠ "") (hne : c ≠ fb.correct_cell_id)
    (hent : s.enter_ts_ms = some e) (he : e ≠ 0) :
    correctCell st fb =
      (((((st.removeCellDwell fb.collector_id fb.camera_id c
              fb.object_id).addTimelineEntry fb.collector_id fb.camera_id fb.object_id
            { type := .correct, cell_id := c, from_ts_ms := e,
              to_ts_ms := some fb.frame_ts_ms,
              meta := [("reason", .str "correction"), ("original_cell", .str c),
                       ("corrected_cell", .str fb.correct_cell_id)] }).setObjectState
          { s with current_cell := some fb.correct_cell_id,
                   enter_ts_ms := some fb.frame_ts_ms,
                   last_seen_ts_ms := fb.frame_ts_ms }).addTimelineEntry
        fb.collector_id fb.camera_id fb.object_id
        { type := .enter, cell_id := fb.correct_cell_id, from_ts_ms := fb.frame_ts_ms,
          to_ts_ms := none,
          meta := [("reason", .str "correction")] }).logFeedbackEvent "correct_cell",
       .ok) := by
  have hno : ¬ (s.current_cell = some fb.correct_cell_id) := by
    rw [hcur]
    simp [hne]
  simp [correctCell, hget, if_neg hno, hcur, hent, truthyStr, truthyInt, hc, he, hne]

/-- C7 counterexample: through schema-valid calls — observations
(A, G_05_08, 1000) and (A, G_06_08, 2500), then correct_cell back to G_05_08
at frame_ts_ms = 0 — the store reaches ObjectState(A) = (G_05_08, enter 0,
accumulated 1500) with a remaining contribution of 1500 by A on G_05_08.
A further correct_cell to G_06_08 succeeds but, because enter_ts_ms = 0 is
JS-falsy, skips the removal: the contribution of A to the original cell
G_05_08 stays 1500 instead of being zeroed. -/
theorem C7_counterexample :
    (correctCell (correctCell (processAll procInit Store.empty [obsS1, obsS3]).2
          ⟨"col", "cam", "A", 0, "G_05_08"⟩).1 ⟨"col", "cam", "A", 500, "G_06_08"⟩).1.cellContribution
        "col" "cam" "G_05_08" "A" = some 1500 ∧
    (correctCell (processAll procInit Store.empty [obsS1, obsS3]).2
          ⟨"col", "cam", "A", 0, "G_05_08"⟩).1.getObjectState "col" "cam" "A" =
      some ⟨"col", "cam", "A", some "G_05_08", some 0, 0, 1500⟩ ∧
    (correctCell (correctCell (processAll procInit Store.empty [obsS1, obsS3]).2
          ⟨"col", "cam", "A", 0, "G_05_08"⟩).1 ⟨"col", "cam", "A", 500, "G_06_08"⟩).2 =
      FeedbackStatus.ok := by
  refine ⟨by decide, by decide, by decide⟩

/-- The seed of a left fold by max is bounded by the fold. -/
theorem le_foldl_max (l : List Int) (a : Int) : a ≤ l.foldl max a := by
  induction l generalizing a with
  | nil => simp
  | cons hd tl ih =>
      calc a ≤ max a hd := le_max_left a hd
        _ ≤ tl.foldl max (max a hd) := ih (max a hd)

/-- Every member of the list is bounded by a left fold by max over it. -/
theorem mem_le_foldl_max {x : Int} {l : List Int} (hx : x ∈ l) (a : Int) :
    x ≤ l.foldl max a := by
  induction l generalizing a with
  | nil => cases hx
  | cons hd tl ih =>
      rcases List.mem_cons.mp hx with h | h
      · subst h
        calc x ≤ max a x := le_max_right a x
          _ ≤ tl.foldl max (max a x) := le_foldl_max tl (max a x)
      · exact ih h (max a hd)

/-- A left fold by max is the seed or a member of the list. -/
theorem foldl_max_eq_seed_or_mem (l : List Int) (a : Int) :
    l.foldl max a = a ∨ l.foldl max a ∈ l := by
  induction l generalizing a with
  | nil => left; rfl
  | cons hd tl ih =>
      rcases ih (max a hd) with h | h
      · rcases max_cases a hd with ⟨hm, _⟩ | ⟨hm, _⟩
        · left
          simpa [hm] using h
        · right
          simp only [List.foldl_cons]
          rw [h, hm]
          exact List.mem_cons_self hd tl
      · right
        exact List.mem_cons_of_mem hd h

/-- Every stat in the list is bounded by maxDwellOf. -/
theorem le_maxDwellOf {s : CellStats} {stats : List CellStats} (hs : s ∈ stats) :
    s.total_dwell_ms ≤ maxDwellOf stats := by
  match stats, hs with
  | hd :: tl, hs =>
      rcases List.mem_cons.mp hs with h | h
      · subst h
        exact le_foldl_max _ _
      · exact mem_le_foldl_max (List.mem_map_of_mem (fun t => t.total_dwell_ms) h) _

/-- maxDwellOf of a non-empty list is attained by one of its members. -/
theorem maxDwellOf_mem {stats : List CellStats} (h : stats ≠ []) :
    ∃ s ∈ stats, maxDwellOf stats = s.total_dwell_ms := by
  match stats, h with
  | hd :: tl, _ =>
      rcases foldl_max_eq_seed_or_mem (tl.map (fun t => t.total_dwell_ms))
          hd.total_dwell_ms with hcase | hcase
      · exact ⟨hd, List.mem_cons_self hd tl, hcase⟩
      · rcases List.mem_map.mp hcase with ⟨s, hsmem, hseq⟩
        exact ⟨s, List.mem_cons_of_mem hd hsmem, hseq.symm⟩

/-- C8 (amended): for window_ms ≠ 0, every returned cell carries intensity =
jsDiv dwell_ms maxDwell; when the dwell values are non-negative and at least
one is positive, every intensity is a finite rational in [0, 1] and the
maximum-dwell cell has intensity exactly 1; for window_ms = 0 the cells list
is empty.  (When every returned dwell is 0 the divisor is 0 and the computed
intensity is NaN — see the counterexample — which is what forces the
positivity hypothesis.) -/
theorem C8_heatmap (collectorId cameraId : String) (w : Int) (stats : List CellStats)
    (hw : w ≠ 0)
    (hnn : ∀ s ∈ stats, 0 ≤ s.total_dwell_ms)
    (hpos : ∃ s ∈ stats, 0 < s.total_dwell_ms) :
    (∀ cell ∈ (generateHeatmapData collectorId cameraId w stats).cells,
        cell.intensity = jsDiv cell.dwell_ms (maxDwellOf stats) ∧
        cell.intensity.inUnit = true) ∧
    (∃ cell ∈ (generateHeatmapData collectorId cameraId w stats).cells,
        cell.dwell_ms = maxDwellOf stats ∧ cell.intensity = JSNum.val 1) ∧
    (generateHeatmapData collectorId cameraId 0 stats).cells = [] := by
  have hM : 0 < maxDwellOf stats := by
    rcases hpos with ⟨s, hsmem, hspos⟩
    exact lt_of_lt_of_le hspos (le_maxDwellOf hsmem)
  have hMne : maxDwellOf stats ≠ 0 := ne_of_gt hM
  have hcells : (generateHeatmapData collectorId cameraId w stats).cells =
      stats.map (fun stat =>
        { grid_cell_id := stat.grid_cell_id,
          x := (cellXY stat.grid_cell_id).1,
          y := (cellXY stat.grid_cell_id).2,
          dwell_ms := stat.total_dwell_ms,
          object_count := stat.object_count,
          intensity := jsDiv stat.total_dwell_ms (maxDwellOf stats) }) := by
    simp [generateHeatmapData, if_neg hw]
  refine ⟨?_, ?_, by simp [generateHeatmapData]⟩
  · intro cell hcell
    rw [hcells] at hcell
    rcases List.mem_map.mp hcell with ⟨stat, hstat, hmk⟩
    subst hmk
    refine ⟨rfl, ?_⟩
    have hd0 : 0 ≤ stat.total_dwell_ms := hnn stat hstat
    have hdM : stat.total_dwell_ms ≤ maxDwellOf stats := le_maxDwellOf hstat
    simp only [jsDiv, if_neg hMne, JSNum.inUnit, Bool.and_eq_true, decide_eq_true_eq]
    constructor
    · exact div_nonneg (by exact_mod_cast hd0) (by exact_mod_cast le_of_lt hM)
    · rw [div_le_one (by exact_mod_cast hM)]
      exact_mod_cast hdM
  · have hne : stats ≠ [] := by
      rcases hpos with ⟨s, hsmem, _⟩
      intro hnil
      rw [hnil] at hsmem
      cases hsmem
    rcases maxDwellOf_mem hne with ⟨s, hsmem, hseq⟩
    rw [hcells]
    refine ⟨_, List.mem_map_of_mem _ hsmem, ?_, ?_⟩
    · exact hseq.symm
    · simp only [jsDiv, if_neg hMne, ← hseq]
      rw [div_self (by exact_mod_cast hMne)]

/-- C8 counterexample: a response whose only returned cell has dwell 0 (a
zero-dwell aggregate arises from any timeout close with last_seen equal to
enter, as in scenario S4) computes intensity 0 / 0 = NaN, which does not lie
in [0, 1], falsifying the unconditional range claim. -/
theorem C8_counterexample :
    ((generateHeatmapData "col" "cam" 3600000
          [⟨"col", "cam", "G_00_00", 0, 0, 0, 0, 0⟩]).cells.map
        (fun cell => cell.intensity)) = [JSNum.nan] ∧
    JSNum.nan.inUnit = false := by
  constructor
  · decide
  · decide

/-- The dedup set after processEvent, while the set stays within the 10000
clearing bound: unchanged for a duplicate, otherwise the id is pushed. -/
theorem processEvent_seen (p : Processor) (st : Store) (ev : NormalizedEvent)
    (h : p.seen.length < 10000) :
    (processEvent p st ev).1.seen =
      if ev.event_id ∈ p.seen then p.seen else ev.event_id :: p.seen := by
  by_cases hmem : ev.event_id ∈ p.seen
  · simp [processEvent, hmem]
  · have hlen : ¬ ((ev.event_id :: p.seen).length > 10000) := by
      simp only [List.length_cons]
      omega
    simp [processEvent, hmem, if_neg hlen]
    omega

/-- While the total number of ids stays within the clearing bound, a run
keeps every previously seen id, records the id of every processed event, and
grows the dedup set by at most one id per event. -/
theorem processAll_seen_incl (es : List NormalizedEvent) (p : Processor) (st : Store)
    (h : p.seen.length + es.length ≤ 10000) :
    (∀ x ∈ p.seen, x ∈ (processAll p st es).1.seen) ∧
    (∀ e ∈ es, e.event_id ∈ (processAll p st es).1.seen) ∧
    (processAll p st es).1.seen.length ≤ p.seen.length + es.length := by
  induction es generalizing p st with
  | nil => exact ⟨fun x hx => hx, fun e he => absurd he (List.not_mem_nil e), by simp [processAll]⟩
  | cons ev rest ih =>
      have hstep : processAll p st (ev :: rest) =
          processAll (processEvent p st ev).1 (processEvent p st ev).2 rest := rfl
      have hlt : p.seen.length < 10000 := by
        simp only [List.length_cons] at h
        omega
      have hseen := processEvent_seen p st ev hlt
      rw [hstep]
      by_cases hmem : ev.event_id ∈ p.seen
      · rw [if_pos hmem] at hseen
        have hrec := ih (processEvent p st ev).1 (processEvent p st ev).2
          (by rw [hseen]; simp only [List.length_cons] at h; omega)
        refine ⟨fun x hx => hrec.1 x (hseen ▸ hx), ?_, ?_⟩
        · intro e he
          rcases List.mem_cons.mp he with hh | hh
          · subst hh
            exact hrec.1 e.event_id (hseen ▸ hmem)
          · exact hrec.2.1 e hh
        · have h2 := hrec.2.2
          rw [hseen] at h2
          simp only [List.length_cons]
          omega
      · rw [if_neg hmem] at hseen
        have hrec := ih (processEvent p st ev).1 (processEvent p st ev).2
          (by rw [hseen]; simp only [List.length_cons] at h ⊢; omega)
        refine ⟨fun x hx => hrec.1 x (by rw [hseen]; exact List.mem_cons_of_mem _ hx),
          ?_, ?_⟩
        · intro e he
          rcases List.mem_cons.mp he with hh | hh
          · subst hh
            exact hrec.1 e.event_id (by rw [hseen]; exact List.mem_cons_self _ _)
          · exact hrec.2.1 e hh
        · have h2 := hrec.2.2
          rw [hseen] at h2
          simp only [List.length_cons] at h2 ⊢
          omega

/-- A run whose every event id is already in the dedup set changes nothing. -/
theorem processAll_all_seen (es : List NormalizedEvent) (p : Processor) (st : Store)
    (h : ∀ e ∈ es, e.event_id ∈ p.seen) :
    processAll p st es = (p, st) := by
  induction es with
  | nil => rfl
  | cons ev rest ih =>
      have hmem : ev.event_id ∈ p.seen := h ev (List.mem_cons_self _ _)
      have hskip : processEvent p st ev = (p, st) := by
        simp [processEvent, hmem]
      show processAll (processEvent p st ev).1 (processEvent p st ev).2 rest = (p, st)
      rw [hskip]
      exact ih (fun e he => h e (List.mem_cons_of_mem _ he))

/-- C9 (amended): replay determinism holds only when the deduplication set is
retained between the two runs: if the total number of ids fits inside the
10000-entry clearing bound, running the sequence a second time with the SAME
processor is a no-op on the processor and the store.  With a fresh dedup set
on the second run — the situation the claim describes — the events are
re-applied and the aggregates and timeline diverge (see the
counterexample). -/
theorem C9_replay (p : Processor) (st : Store) (es : List NormalizedEvent)
    (h : p.seen.length + es.length ≤ 10000) :
    processAll (processAll p st es).1 (processAll p st es).2 es = processAll p st es := by
  have hincl := processAll_seen_incl es p st h
  exact processAll_all_seen es (processAll p st es).1 (processAll p st es).2 hincl.2.1

/-- C9 counterexample: the partition-ordered sequence (A, G_01_01, 1000),
(A, G_02_01, 2000) processed once and then replayed with a fresh dedup set:
the replay re-runs both transitions against the final state, appending four
extra timeline entries and writing a spurious contribution of -1000 on
G_02_01, so the timeline and aggregates are not identical to the single
run. -/
theorem C9_counterexample :
    (processAll procInit (processAll procInit Store.empty
          [⟨"b1", "col", "cam", "A", "G_01_01", 1000⟩,
           ⟨"b2", "col", "cam", "A", "G_02_01", 2000⟩]).2
        [⟨"b1", "col", "cam", "A", "G_01_01", 1000⟩,
         ⟨"b2", "col", "cam", "A", "G_02_01", 2000⟩]).2.timelineOf "col" "cam" "A" ≠
      (processAll procInit Store.empty
          [⟨"b1", "col", "cam", "A", "G_01_01", 1000⟩,
           ⟨"b2", "col", "cam", "A", "G_02_01", 2000⟩]).2.timelineOf "col" "cam" "A" ∧
    (processAll procInit (processAll procInit Store.empty
          [⟨"b1", "col", "cam", "A", "G_01_01", 1000⟩,
           ⟨"b2", "col", "cam", "A", "G_02_01", 2000⟩]).2
        [⟨"b1", "col", "cam", "A", "G_01_01", 1000⟩,
         ⟨"b2", "col", "cam", "A", "G_02_01", 2000⟩]).2.cellContribution "col" "cam"
      "G_02_01" "A" = some (-1000) ∧
    (processAll procInit Store.empty
        [⟨"b1", "col", "cam", "A", "G_01_01", 1000⟩,
         ⟨"b2", "col", "cam", "A", "G_02_01", 2000⟩]).2.cellContribution "col" "cam"
      "G_02_01" "A" = none := by
  refine ⟨by decide, by decide, by decide⟩

/-- C10 (amended): the store round-trip is lossless exactly on the states
whose enter_ts_ms is non-null (and whose current_cell is not the literal
string "null", impossible for grid ids): for those, getObjectState after
setObjectState returns the state field for field.  A null enter_ts_ms is
stored as the string "null", which is truthy, so the read parses it with
parseInt and yields NaN instead of null — see the counterexample. -/
theorem C10_round_trip (s : ObjectState)
    (hent : s.enter_ts_ms ≠ none)
    (hcell : s.current_cell ≠ some "null") :
    decodeState (encodeState s) = embedState s := by
  rcases henter : s.enter_ts_ms with _ | e
  · exact absurd henter hent
  · rcases hcur : s.current_cell with _ | c
    · simp [decodeState, encodeState, embedState, NumStr.truthy, NumStr.parseIntJS,
        henter, hcur]
    · have hc : c ≠ "null" := by
        intro hb
        rw [hb] at hcur
        exact hcell hcur
      simp [decodeState, encodeState, embedState, NumStr.truthy, NumStr.parseIntJS,
        henter, hcur, hc]

/-- C10 counterexample: a state with current_cell = null and enter_ts_ms =
null (the shape the spec sweeper is supposed to leave behind) does not
round-trip: the stored "null" string is truthy, so getObjectState returns
enter_ts_ms = NaN instead of null. -/
theorem C10_counterexample :
    decodeState (encodeState ⟨"col", "cam", "A", none, none, 123, 0⟩) ≠
      embedState ⟨"col", "cam", "A", none, none, 123, 0⟩ ∧
    (decodeState (encodeState ⟨"col", "cam", "A", none, none, 123, 0⟩)).enter_ts_ms =
      some JSInt.nan := by
  constructor
  · decide
  · decide

/-- Witness for C1_transition at a concrete transition input. -/
theorem C1_transition_witness :
    (2000 : Int) - 1500 ≤ 30000 ∧
    updateDwellState 30000 Store.empty ⟨"w1", "col", "cam", "B", "G_02_02", 2000⟩
        (some ⟨"col", "cam", "B", some "G_01_01", some 1000, 1500, 7⟩) =
      (((Store.empty.updateCellDwell "col" "cam" "G_01_01" "B"
            (2000 - 1000)).addTimelineEntry "col" "cam" "B"
          ⟨.leave, "G_01_01", 1000, some 2000, []⟩).addTimelineEntry "col" "cam" "B"
        ⟨.enter, "G_02_02", 2000, none, []⟩,
       ⟨"col", "cam", "B", some "G_02_02", some 2000, 2000, 7 + (2000 - 1000)⟩) :=
  ⟨by decide,
   (C1_transition 30000 Store.empty ⟨"col", "cam", "B", some "G_01_01", some 1000, 1500, 7⟩
      ⟨"w1", "col", "cam", "B", "G_02_02", 2000⟩ "G_01_01" 1000 rfl (by decide) (by decide)
      rfl (by decide) (by decide)).1⟩

/-- Witness for C2_out_of_order at a concrete out-of-order input. -/
theorem C2_out_of_order_witness :
    (0 : Int) ≤ 30000 ∧ (1200 : Int) < 2500 ∧
    updateDwellState 30000 Store.empty ⟨"w2", "col", "cam", "B", "G_01_01", 1200⟩
        (some ⟨"col", "cam", "B", some "G_01_01", some 1000, 2500, 0⟩) =
      (Store.empty, ⟨"col", "cam", "B", some "G_01_01", some 1000, 1200, 0⟩) :=
  ⟨by decide, by decide,
   (C2_out_of_order 30000 Store.empty ⟨"col", "cam", "B", some "G_01_01", some 1000, 2500, 0⟩
      ⟨"w2", "col", "cam", "B", "G_01_01", 1200⟩ (by decide) (by decide) rfl).1⟩

/-- Witness for C3_gap_same_cell at a concrete over-timeout input. -/
theorem C3_gap_same_cell_witness :
    (40000 : Int) - 1500 > 30000 ∧
    updateDwellState 30000 Store.empty ⟨"w3", "col", "cam", "B", "G_03_03", 40000⟩
        (some ⟨"col", "cam", "B", some "G_03_03", some 1000, 1500, 5⟩) =
      ((Store.empty.updateCellDwell "col" "cam" "G_03_03" "B"
          (1500 - 1000)).addTimelineEntry "col" "cam" "B"
        ⟨.leave, "G_03_03", 1000, some 1500, [("reason", .str "timeout")]⟩,
       ⟨"col", "cam", "B", some "G_03_03", some 1000, 40000, 5⟩) :=
  ⟨by decide,
   C3_gap_same_cell 30000 Store.empty ⟨"col", "cam", "B", some "G_03_03", some 1000, 1500, 5⟩
     ⟨"w3", "col", "cam", "B", "G_03_03", 40000⟩ "G_03_03" 1000 rfl (by decide) rfl
     (by decide) rfl (by decide)⟩

/-- Witness for C6_relabel at a concrete store holding one object. -/
theorem C6_relabel_witness :
    (0 : Int) < 50 ∧
    relabel (Store.empty.setObjectState ⟨"col", "cam", "old1", some "G_04_04", some 100, 200, 50⟩)
        ⟨"col", "cam", "old1", "new1", 999⟩ =
      ((((Store.empty.setObjectState
              ⟨"col", "cam", "old1", some "G_04_04", some 100, 200, 50⟩).setObjectState
            ⟨"col", "cam", "new1", some "G_04_04", some 100, 200, 50⟩).removeCellDwell
          "col" "cam" "G_04_04" "old1").updateCellDwell "col" "cam" "G_04_04" "new1"
        50 |>.logFeedbackEvent "relabel", .ok) :=
  ⟨by decide,
   C6_relabel (Store.empty.setObjectState ⟨"col", "cam", "old1", some "G_04_04", some 100, 200, 50⟩)
     ⟨"col", "cam", "old1", "new1", 999⟩ ⟨"col", "cam", "old1", some "G_04_04", some 100, 200, 50⟩
     "G_04_04" rfl rfl (by decide) (by decide)⟩

/-- Witness for C7_correct_cell at a concrete store holding one object. -/
theorem C7_correct_cell_witness :
    "G_05_05" ≠ "G_06_06" ∧
    correctCell (Store.empty.setObjectState ⟨"col", "cam", "obj1", some "G_05_05", some 100, 100, 42⟩)
        ⟨"col", "cam", "obj1", 700, "G_06_06"⟩ =
      ((((((Store.empty.setObjectState
                ⟨"col", "cam", "obj1", some "G_05_05", some 100, 100, 42⟩).removeCellDwell
              "col" "cam" "G_05_05" "obj1").addTimelineEntry "col" "cam" "obj1"
            ⟨.correct, "G_05_05", 100, some 700,
             [("reason", .str "correction"), ("original_cell", .str "G_05_05"),
              ("corrected_cell", .str "G_06_06")]⟩).setObjectState
          ⟨"col", "cam", "obj1", some "G_06_06", some 700, 700, 42⟩).addTimelineEntry
        "col" "cam" "obj1"
        ⟨.enter, "G_06_06", 700, none, [("reason", .str "correction")]⟩).logFeedbackEvent
        "correct_cell", .ok) :=
  ⟨by decide,
   C7_correct_cell (Store.empty.setObjectState ⟨"col", "cam", "obj1", some "G_05_05", some 100, 100, 42⟩)
     ⟨"col", "cam", "obj1", 700, "G_06_06"⟩ ⟨"col", "cam", "obj1", some "G_05_05", some 100, 100, 42⟩
     "G_05_05" 100 rfl rfl (by decide) (by decide) rfl (by decide)⟩

/-- Witness for C8_heatmap on a two-cell stats list with positive dwell. -/
theorem C8_heatmap_witness :
    (3600000 : Int) ≠ 0 ∧
    (∃ cell ∈ (generateHeatmapData "col" "cam" 3600000
          [⟨"col", "cam", "G_00_00", 3, 1, 0, 0, 0⟩,
           ⟨"col", "cam", "G_01_00", 1, 1, 0, 0, 0⟩]).cells,
        cell.dwell_ms = maxDwellOf
          [⟨"col", "cam", "G_00_00", 3, 1, 0, 0, 0⟩,
           ⟨"col", "cam", "G_01_00", 1, 1, 0, 0, 0⟩] ∧
        cell.intensity = JSNum.val 1) :=
  ⟨by decide,
   (C8_heatmap "col" "cam" 3600000
      [⟨"col", "cam", "G_00_00", 3, 1, 0, 0, 0⟩, ⟨"col", "cam", "G_01_00", 1, 1, 0, 0, 0⟩]
      (by decide) (by decide) (by decide)).2.1⟩

/-- Witness for C9_replay on a one-event sequence with a retained dedup set. -/
theorem C9_replay_witness :
    procInit.seen.length + 1 ≤ 10000 ∧
    processAll (processAll procInit Store.empty
          [⟨"w9", "col", "cam", "C", "G_01_01", 100⟩]).1
        (processAll procInit Store.empty [⟨"w9", "col", "cam", "C", "G_01_01", 100⟩]).2
        [⟨"w9", "col", "cam", "C", "G_01_01", 100⟩] =
      processAll procInit Store.empty [⟨"w9", "col", "cam", "C", "G_01_01", 100⟩] :=
  ⟨by decide,
   C9_replay procInit Store.empty [⟨"w9", "col", "cam", "C", "G_01_01", 100⟩] (by decide)⟩

/-- Witness for C10_round_trip on a state with non-null enter_ts_ms. -/
theorem C10_round_trip_witness :
    (⟨"col", "cam", "A", some "G_02_02", some 5, 6, 7⟩ : ObjectState).enter_ts_ms ≠ none ∧
    decodeState (encodeState ⟨"col", "cam", "A", some "G_02_02", some 5, 6, 7⟩) =
      embedState ⟨"col", "cam", "A", some "G_02_02", some 5, 6, 7⟩ :=
  ⟨by decide,
   C10_round_trip ⟨"col", "cam", "A", some "G_02_02", some 5, 6, 7⟩ (by decide) (by decide)⟩

end VisionLogistics
